import Mathlib

/-!
Shallow embedding of `generate_script` from `src/utils.py` of the
Video-Script-Generator-with-Deepseek-API repository.

The function is sequential glue around three external calls: a
chat-completion call producing a title, a Wikipedia lookup producing a
research digest (with local fallback on failure), and a second
chat-completion call producing the script.  The two external
collaborators are modelled as oracles (`Providers`): the language model
as a function from the request the code builds (credential, temperature,
prompt) to either a completion or an error, and the Wikipedia lookup as
a function from the query to a discriminated outcome matching the
`except` arms of the source (success text / ConnectionError /
TimeoutError / any other exception with its message).

`generate_script` returns, next to its result, the list of outbound
network calls in the order the code issues them, so that claims about
call ordering and about "no network call before the credential check"
can be stated.  Python floats (`video_length`, `creativity`) are
embedded as rationals; `int()` is truncation toward zero and
`str.strip` is `String.trim`.
-/

namespace VideoScript

/-- Outcome of the Wikipedia lookup attempt, mirroring the cases the
`try`/`except` block of `src/utils.py` lines 80-98 distinguishes. -/
inductive WikiOutcome where
  | success (text : String)
  | connectionError
  | timeoutError
  | otherError (msg : String)
deriving DecidableEq

/-- One chat-completion request as the code builds it: the resolved
credential, the sampling temperature (`creativity`), and the rendered
prompt text.  (Endpoint, model name, timeout and retry count are fixed
constants in the source, `src/utils.py` lines 65-72, and carry no
information per call.) -/
structure LLMRequest where
  api_key : String
  temperature : Rat
  prompt : String
deriving DecidableEq

/-- An outbound network call. -/
inductive NetEvent where
  | llm (req : LLMRequest)
  | wiki (query : String)
deriving DecidableEq

/-- Errors `generate_script` can raise: the `ValueError` of the missing
credential check (spec name: ConfigurationError), and an uncaught
provider error from either chat-completion call (spec name:
GenerationError). -/
inductive ScriptError where
  | configurationError (msg : String)
  | generationError (msg : String)
deriving DecidableEq

/-- The two external collaborators, as oracles. -/
structure Providers where
  llm : LLMRequest → Except String String
  wiki : String → WikiOutcome

/-- Message of the `ValueError` raised at `src/utils.py` line 25. -/
def config_error_msg : String :=
  "请设置 DEEPSEEK_API_KEY 环境变量，或直接传入 api_key 参数"

/-- Credential resolution, `src/utils.py` lines 23-25:
`api_key = api_key or os.getenv("DEEPSEEK_API_KEY")` followed by
`if not api_key: raise`.  Python `or` takes the right operand when the
left is `None` or the empty string; the `not` check then rejects `None`
and the empty string.  Returns `some key` with `key` nonempty exactly
when the code proceeds. -/
def resolve_api_key (api_key : Option String) (env_api_key : Option String) :
    Option String :=
  let resolved :=
    match api_key with
    | some s => if s = "" then env_api_key else some s
    | none => env_api_key
  match resolved with
  | some s => if s = "" then none else some s
  | none => none

/-- The title prompt, `src/utils.py` lines 30-33, with `subject`
substituted for its placeholder. -/
def title_prompt (subject : String) : String :=
  "请为\x27" ++ subject ++ "\x27主题的短视频创作1个吸引人的标题，严格遵循：\n" ++
  "1. 用年轻人熟悉的网络热词/疑问句/反差感（例：\x27炸了！Sora居然能做电影级视频？\x27）\n" ++
  "2. 20字以内，无专业术语，一眼抓注意力\n" ++
  "3. 适配抖音/小红书等短视频平台传播逻辑"

/-- The script prompt, `src/utils.py` lines 41-60, with the four
placeholders (`title`, `duration`, `word_count`, `wikipedia_search`)
substituted.  The numeric values are rendered with `toString`; the
Python code renders them with `str`, and no claim depends on the digit
rendering. -/
def script_prompt (title : String) (duration : Rat) (word_count : Int)
    (wikipedia_search : String) : String :=
  "你是抖音/小红书风格的年轻向短视频博主，说话接地气、有网感，避免说教式表达。\n" ++
  "             请根据以下信息生成结构化视频脚本，严格遵守要求：\n\n" ++
  "             核心约束：\n" ++
  "             - 视频标题：" ++ title ++ "\n" ++
  "             - 目标时长：" ++ toString duration ++
  "分钟（1分钟≈200字，总字数控制在 " ++ toString word_count ++ " 字左右）\n" ++
  "             - 参考资料：维基百科搜索结果（仅提取相关干货，无关内容直接忽略）\n\n" ++
  "             脚本结构要求（必须明确分隔）：\n" ++
  "             1. 【开头】（30字内）：用反转/疑问/热点引入，瞬间抓住注意力（例：\"你敢信？AI视频已经卷到这种程度了！\"）；\n" ++
  "             2. 【中间】（核心干货）：提炼维基百科关键信息（技术原理/核心功能/应用场景），用大白话解释，无专业术语；\n" ++
  "             3. 【结尾】（30字内）：留悬念/引导互动（例：\"下期实测Sora生成视频，评论区蹲链接的优先安排！\"）；\n\n" ++
  "             风格要求：\n" ++
  "             - 全程口语化，像和朋友聊天，适当用表情符号（如🤯、🔥、🚀）增强感染力；\n" ++
  "             - 避免长句，每句不超过15字，符合短视频快节奏表达；\n" ++
  "             - 网络热词自然融入（如\"卷疯了\"、\"YYDS\"、\"破防了\"），不堆砌。\n\n" ++
  "             参考资料：\n" ++
  "             ```" ++ wikipedia_search ++ "```"

/-- Fallback when the lookup succeeds but the result is empty or
whitespace-only, `src/utils.py` line 91. -/
def wiki_not_found_fallback : String :=
  "维基百科未找到相关详细信息，以下基于公开常识生成内容"

/-- Fallback for `ConnectionError`, `src/utils.py` line 93. -/
def wiki_connection_fallback : String :=
  "维基百科网络连接失败，以下基于公开常识生成内容"

/-- Fallback for `TimeoutError`, `src/utils.py` line 95. -/
def wiki_timeout_fallback : String :=
  "维基百科搜索超时，以下基于公开常识生成内容"

/-- Fallback for any other exception, `src/utils.py` line 98: the
message is truncated to its first 50 characters (`str(e)[:50]`). -/
def wiki_other_fallback (msg : String) : String :=
  "维基百科搜索异常：" ++ msg.take 50 ++ "...，以下基于公开常识生成内容"

/-- The research text the script step uses, as computed by the
`try`/`except` block of `src/utils.py` lines 79-98: the raw summary
when the lookup succeeds with non-whitespace text, otherwise the
fallback of the matching failure category. -/
def research_text_of : WikiOutcome → String
  | .success text => if text.trim = "" then wiki_not_found_fallback else text
  | .connectionError => wiki_connection_fallback
  | .timeoutError => wiki_timeout_fallback
  | .otherError msg => wiki_other_fallback msg

/-- Whether the lookup outcome is one of the failure categories the
code converts to a fallback string (empty or whitespace-only success,
or any raised exception). -/
def lookup_failed : WikiOutcome → Bool
  | .success text => text.trim = ""
  | _ => true

/-- Python `int()` applied to a real value: truncation toward zero. -/
def pyTrunc (q : Rat) : Int :=
  if 0 ≤ q then ⌊q⌋ else ⌈q⌉

/-- The advisory word budget, `src/utils.py` line 101:
`word_count = int(video_length * 200)`. -/
def word_count_of (video_length : Rat) : Int :=
  pyTrunc (video_length * 200)

/-- Python `round()` to the nearest integer, ties to even.  This is the
spec side of claim C3, which states the budget as
`round(video_length * 200)`; it is NOT what the code computes. -/
def pyRound (q : Rat) : Int :=
  if q - ⌊q⌋ < 1 / 2 then ⌊q⌋
  else if 1 / 2 < q - ⌊q⌋ then ⌊q⌋ + 1
  else if ⌊q⌋ % 2 = 0 then ⌊q⌋ else ⌊q⌋ + 1

/-- The embedding of `generate_script`, `src/utils.py` lines 8-110.
Returns the result (a complete 3-tuple `(search_result, title, script)`
or an error) together with the list of outbound network calls in the
order they were issued. -/
def generate_script (P : Providers) (env_api_key : Option String)
    (subject : String) (video_length : Rat) (creativity : Rat)
    (api_key : Option String) :
    Except ScriptError (String × String × String) × List NetEvent :=
  match resolve_api_key api_key env_api_key with
  | none => (.error (.configurationError config_error_msg), [])
  | some key =>
    let titleReq : LLMRequest := ⟨key, creativity, title_prompt subject⟩
    match P.llm titleReq with
    | .error e => (.error (.generationError e), [.llm titleReq])
    | .ok rawTitle =>
      let title := rawTitle.trim
      let search_result := research_text_of (P.wiki subject)
      let word_count := word_count_of video_length
      let scriptReq : LLMRequest :=
        ⟨key, creativity, script_prompt title video_length word_count search_result⟩
      match P.llm scriptReq with
      | .error e =>
        (.error (.generationError e), [.llm titleReq, .wiki subject, .llm scriptReq])
      | .ok rawScript =>
        (.ok (search_result, title, rawScript.trim),
         [.llm titleReq, .wiki subject, .llm scriptReq])

/-- Stub language model used by the concrete witnesses: every
completion succeeds with a fixed text carrying surrounding
whitespace. -/
def stubLLM : LLMRequest → Except String String :=
  fun _ => .ok "  stub completion  "

/-- Providers whose lookup succeeds with a fixed summary. -/
def stubProviders : Providers :=
  ⟨stubLLM, fun _ => .success "Sora is a video model."⟩

/-- Providers whose lookup times out. -/
def stubTimeoutProviders : Providers :=
  ⟨stubLLM, fun _ => .timeoutError⟩

/-- Providers whose lookup raises a generic exception. -/
def stubOtherProviders : Providers :=
  ⟨stubLLM, fun _ => .otherError "boom"⟩

/-- Providers whose lookup succeeds with a whitespace-only summary. -/
def stubWhitespaceProviders : Providers :=
  ⟨stubLLM, fun _ => .success "   "⟩

/-- A nonempty explicit credential survives resolution unchanged,
whatever the environment holds. -/
theorem resolve_some (env_api_key : Option String) (ak : String)
    (hak : ak ≠ "") :
    resolve_api_key (some ak) env_api_key = some ak := by
  simp [resolve_api_key, hak]

/-- Computation lemma: when the credential resolves and both
chat-completion calls succeed, `generate_script` returns the full
3-tuple and the three-call trace. -/
theorem generate_script_ok
    (P : Providers) (env_api_key : Option String) (subject : String)
    (video_length creativity : Rat) (api_key : Option String)
    (key rawTitle rawScript : String)
    (hkey : resolve_api_key api_key env_api_key = some key)
    (ht : P.llm ⟨key, creativity, title_prompt subject⟩ = .ok rawTitle)
    (hs : P.llm ⟨key, creativity, script_prompt rawTitle.trim video_length
        (word_count_of video_length) (research_text_of (P.wiki subject))⟩ =
      .ok rawScript) :
    generate_script P env_api_key subject video_length creativity api_key =
      (.ok (research_text_of (P.wiki subject), rawTitle.trim, rawScript.trim),
       [.llm ⟨key, creativity, title_prompt subject⟩, .wiki subject,
        .llm ⟨key, creativity, script_prompt rawTitle.trim video_length
          (word_count_of video_length) (research_text_of (P.wiki subject))⟩]) := by
  unfold generate_script
  rw [hkey]
  dsimp only
  rw [ht]
  dsimp only
  rw [hs]

/-- Every language-model request in the trace carries the resolved
credential. -/
theorem generate_script_trace_keys
    (P : Providers) (env_api_key : Option String) (subject : String)
    (video_length creativity : Rat) (api_key : Option String) (key : String)
    (hkey : resolve_api_key api_key env_api_key = some key) :
    ∀ req : LLMRequest,
      NetEvent.llm req ∈
        (generate_script P env_api_key subject video_length creativity api_key).2 →
      req.api_key = key := by
  unfold generate_script
  rw [hkey]
  dsimp only
  cases h1 : P.llm ⟨key, creativity, title_prompt subject⟩ with
  | error e =>
    intro req hreq
    simp only [List.mem_cons, List.not_mem_nil, or_false] at hreq
    injection hreq with h2
    rw [h2]
  | ok rawTitle =>
    dsimp only
    cases h2 : P.llm ⟨key, creativity, script_prompt rawTitle.trim video_length
        (word_count_of video_length) (research_text_of (P.wiki subject))⟩ with
    | error e =>
      intro req hreq
      simp only [List.mem_cons, List.not_mem_nil, or_false] at hreq
      rcases hreq with h3 | h3 | h3
      · injection h3 with h4
        rw [h4]
      · exact absurd h3 (by simp)
      · injection h3 with h4
        rw [h4]
    | ok rawScript =>
      intro req hreq
      simp only [List.mem_cons, List.not_mem_nil, or_false] at hreq
      rcases hreq with h3 | h3 | h3
      · injection h3 with h4
        rw [h4]
      · exact absurd h3 (by simp)
      · injection h3 with h4
        rw [h4]

/-- Truncation toward zero of a nonpositive rational is nonpositive. -/
theorem pyTrunc_nonpos {q : Rat} (h : q ≤ 0) : pyTrunc q ≤ 0 := by
  rw [pyTrunc]
  split
  · next h0 =>
    have hq : q = 0 := le_antisymm h h0
    simp [hq]
  · exact Int.ceil_le.2 (by exact_mod_cast h)

/-- `String.take n` returns at most `n` characters. -/
theorem string_take_length_le (s : String) (n : Nat) :
    (s.take n).length ≤ n := by
  show (s.take n).data.length ≤ n
  rw [String.data_take]
  exact List.length_take_le n s.data

/-- Stepping lemma for the left-trim loop. -/
theorem twa_step {s : String} {stopPos : String.Pos} {p : Char → Bool}
    {i : String.Pos} (h : i < stopPos) (hp : p (s.get i) = true) :
    Substring.takeWhileAux s stopPos p i =
      Substring.takeWhileAux s stopPos p (s.next i) := by
  conv_lhs => rw [Substring.takeWhileAux.eq_def]
  simp [h, hp]

/-- Exit lemma for the left-trim loop. -/
theorem twa_stop {s : String} {stopPos : String.Pos} {p : Char → Bool}
    {i : String.Pos} (h : ¬ i < stopPos) :
    Substring.takeWhileAux s stopPos p i = i := by
  rw [Substring.takeWhileAux.eq_def]
  simp [h]

/-- Exit lemma for the right-trim loop. -/
theorem trwa_stop {s : String} {begPos : String.Pos} {p : Char → Bool}
    {i : String.Pos} (h : ¬ begPos < i) :
    Substring.takeRightWhileAux s begPos p i = i := by
  rw [Substring.takeRightWhileAux.eq_def]
  simp [h]

/-- The left-trim loop consumes all of a three-space string. -/
theorem ws_twa :
    Substring.takeWhileAux "   " ⟨3⟩ Char.isWhitespace ⟨0⟩ = ⟨3⟩ := by
  rw [twa_step (by decide) (by decide)]
  rw [show String.next "   " ⟨0⟩ = ⟨1⟩ from by decide]
  rw [twa_step (by decide) (by decide)]
  rw [show String.next "   " ⟨1⟩ = ⟨2⟩ from by decide]
  rw [twa_step (by decide) (by decide)]
  rw [show String.next "   " ⟨2⟩ = ⟨3⟩ from by decide]
  exact twa_stop (by decide)

/-- A whitespace-only string trims to the empty string. -/
theorem trim_ws : "   ".trim = "" := by
  show (Substring.trim (String.toSubstring "   ")).toString = ""
  rw [String.toSubstring]
  rw [Substring.trim]
  simp only [show ("   " : String).endPos = ⟨3⟩ from by decide]
  rw [ws_twa]
  rw [trwa_stop (by decide)]
  rfl

/-- Claim C1: with a usable credential, any failure of the research
lookup (empty or whitespace-only result, connection failure, timeout,
or any other exception) is caught at the lookup stage and never
propagates: the research text is the fallback string of the failure
category, the script-generation call still runs with that fallback text
in its prompt, and the operation returns a complete 3-tuple. -/
theorem C1_research_failure_absorbed
    (P : Providers) (env_api_key : Option String) (subject : String)
    (video_length creativity : Rat) (api_key : Option String)
    (key rawTitle rawScript : String)
    (hkey : resolve_api_key api_key env_api_key = some key)
    (hfail : lookup_failed (P.wiki subject) = true)
    (ht : P.llm ⟨key, creativity, title_prompt subject⟩ = .ok rawTitle)
    (hs : P.llm ⟨key, creativity, script_prompt rawTitle.trim video_length
        (word_count_of video_length) (research_text_of (P.wiki subject))⟩ =
      .ok rawScript) :
    (generate_script P env_api_key subject video_length creativity api_key).1 =
      .ok (research_text_of (P.wiki subject), rawTitle.trim, rawScript.trim) ∧
    (research_text_of (P.wiki subject) = wiki_not_found_fallback ∨
      research_text_of (P.wiki subject) = wiki_connection_fallback ∨
      research_text_of (P.wiki subject) = wiki_timeout_fallback ∨
      ∃ m, research_text_of (P.wiki subject) = wiki_other_fallback m) ∧
    (generate_script P env_api_key subject video_length creativity api_key).2 =
      [.llm ⟨key, creativity, title_prompt subject⟩, .wiki subject,
       .llm ⟨key, creativity, script_prompt rawTitle.trim video_length
         (word_count_of video_length) (research_text_of (P.wiki subject))⟩] := by
  have h := generate_script_ok P env_api_key subject video_length creativity
    api_key key rawTitle rawScript hkey ht hs
  refine ⟨by rw [h], ?_, by rw [h]⟩
  cases hw : P.wiki subject with
  | success text =>
    rw [hw] at hfail
    simp only [lookup_failed, decide_eq_true_eq] at hfail
    left
    simp [research_text_of, hfail]
  | connectionError =>
    right; left
    simp [research_text_of]
  | timeoutError =>
    right; right; left
    simp [research_text_of]
  | otherError msg =>
    right; right; right
    exact ⟨msg, by simp [research_text_of]⟩

/-- Claim C1 witness: a timed-out lookup still yields a complete
3-tuple whose research text is the timeout fallback. -/
theorem C1_research_failure_absorbed_witness :
    (generate_script stubTimeoutProviders (some "k") "sora模型" 1 (7 / 10) none).1 =
      .ok (wiki_timeout_fallback,
        "  stub completion  ".trim, "  stub completion  ".trim) :=
  (C1_research_failure_absorbed stubTimeoutProviders (some "k") "sora模型" 1
    (7 / 10) none "k" "  stub completion  " "  stub completion  "
    rfl rfl rfl rfl).1

/-- Claim C2: with no explicit credential and no configured
DEEPSEEK_API_KEY, the operation fails immediately with the
configuration error and the network-call trace is empty. -/
theorem C2_missing_credential_fails_without_network
    (P : Providers) (subject : String) (video_length creativity : Rat) :
    generate_script P none subject video_length creativity none =
      (.error (.configurationError config_error_msg), []) := rfl

/-- Claim C3 counterexample: at `video_length = 2009/2000` the budget
the code embeds (truncation, giving 200) differs from
`round(video_length * 200)` (which gives 201), so the claimed `round`
formula does not describe the code. -/
theorem C3_round_vs_trunc_counterexample :
    word_count_of (2009 / 2000) ≠ pyRound ((2009 / 2000 : Rat) * 200) := by
  have hq : ((2009 : Rat) / 2000 * 200) = 2009 / 10 := by norm_num
  have hfl : ⌊((2009 : Rat) / 10)⌋ = 200 := by
    rw [Int.floor_eq_iff]
    constructor
    · norm_num
    · norm_num
  have h1 : word_count_of (2009 / 2000) = 200 := by
    rw [word_count_of, pyTrunc, if_pos (by norm_num : (0 : Rat) ≤ 2009 / 2000 * 200),
      hq, hfl]
  have h2 : pyRound ((2009 / 2000 : Rat) * 200) = 201 := by
    rw [pyRound, hq, hfl]
    rw [if_neg (by norm_num), if_pos (by norm_num)]
    decide
  rw [h1, h2]
  decide

/-- Claim C3 as amended: the advisory word budget embedded in the
script prompt is `int(video_length * 200)` (truncation toward zero); in
particular `video_length = 1` yields 200 and `video_length = 5/2`
yields 500, and the computation is a deterministic function of
`video_length`. -/
theorem C3_word_budget_truncation
    (P : Providers) (env_api_key : Option String) (subject : String)
    (video_length creativity : Rat) (api_key : Option String)
    (key rawTitle rawScript : String)
    (hkey : resolve_api_key api_key env_api_key = some key)
    (ht : P.llm ⟨key, creativity, title_prompt subject⟩ = .ok rawTitle)
    (hs : P.llm ⟨key, creativity, script_prompt rawTitle.trim video_length
        (word_count_of video_length) (research_text_of (P.wiki subject))⟩ =
      .ok rawScript) :
    (generate_script P env_api_key subject video_length creativity api_key).2 =
      [.llm ⟨key, creativity, title_prompt subject⟩, .wiki subject,
       .llm ⟨key, creativity, script_prompt rawTitle.trim video_length
         (pyTrunc (video_length * 200)) (research_text_of (P.wiki subject))⟩] ∧
    word_count_of 1 = 200 ∧ word_count_of (5 / 2) = 500 := by
  have h := generate_script_ok P env_api_key subject video_length creativity
    api_key key rawTitle rawScript hkey ht hs
  refine ⟨by rw [h]; rfl, ?_, ?_⟩
  · rw [word_count_of, pyTrunc, if_pos (by norm_num : (0 : Rat) ≤ 1 * 200),
      show ((1 : Rat) * 200) = 200 by norm_num, Int.floor_eq_iff]
    constructor
    · norm_num
    · norm_num
  · rw [word_count_of, pyTrunc, if_pos (by norm_num : (0 : Rat) ≤ 5 / 2 * 200),
      show ((5 : Rat) / 2 * 200) = 500 by norm_num, Int.floor_eq_iff]
    constructor
    · norm_num
    · norm_num

/-- Claim C3 witness: concrete successful run exhibiting the truncated
budget in the script prompt. -/
theorem C3_word_budget_truncation_witness :
    (generate_script stubProviders (some "k") "sora模型" 1 (7 / 10) none).2 =
      [.llm ⟨"k", 7 / 10, title_prompt "sora模型"⟩, .wiki "sora模型",
       .llm ⟨"k", 7 / 10, script_prompt ("  stub completion  ".trim) 1
         (pyTrunc (1 * 200)) (research_text_of (stubProviders.wiki "sora模型"))⟩] ∧
    word_count_of 1 = 200 ∧ word_count_of (5 / 2) = 500 :=
  C3_word_budget_truncation stubProviders (some "k") "sora模型" 1 (7 / 10) none
    "k" "  stub completion  " "  stub completion  " rfl rfl rfl

/-- Claim C4: in every successful invocation the three external calls
happen strictly in the order title call, research call, script call,
and the script call receives the produced title and the research
text in its prompt. -/
theorem C4_calls_in_order
    (P : Providers) (env_api_key : Option String) (subject : String)
    (video_length creativity : Rat) (api_key : Option String)
    (key rawTitle rawScript : String)
    (hkey : resolve_api_key api_key env_api_key = some key)
    (ht : P.llm ⟨key, creativity, title_prompt subject⟩ = .ok rawTitle)
    (hs : P.llm ⟨key, creativity, script_prompt rawTitle.trim video_length
        (word_count_of video_length) (research_text_of (P.wiki subject))⟩ =
      .ok rawScript) :
    (generate_script P env_api_key subject video_length creativity api_key).2 =
      [.llm ⟨key, creativity, title_prompt subject⟩,
       .wiki subject,
       .llm ⟨key, creativity, script_prompt rawTitle.trim video_length
         (word_count_of video_length) (research_text_of (P.wiki subject))⟩] := by
  rw [generate_script_ok P env_api_key subject video_length creativity
    api_key key rawTitle rawScript hkey ht hs]

/-- Claim C4 witness: the concrete trace of a successful run. -/
theorem C4_calls_in_order_witness :
    (generate_script stubProviders (some "k") "sora模型" 1 (7 / 10) none).2 =
      [.llm ⟨"k", 7 / 10, title_prompt "sora模型"⟩,
       .wiki "sora模型",
       .llm ⟨"k", 7 / 10, script_prompt ("  stub completion  ".trim) 1
         (word_count_of 1) (research_text_of (stubProviders.wiki "sora模型"))⟩] :=
  C4_calls_in_order stubProviders (some "k") "sora模型" 1 (7 / 10) none
    "k" "  stub completion  " "  stub completion  " rfl rfl rfl

/-- Claim C5: the returned title and script are the raw provider
completions with leading and trailing whitespace removed. -/
theorem C5_outputs_whitespace_trimmed
    (P : Providers) (env_api_key : Option String) (subject : String)
    (video_length creativity : Rat) (api_key : Option String)
    (key rawTitle rawScript : String)
    (hkey : resolve_api_key api_key env_api_key = some key)
    (ht : P.llm ⟨key, creativity, title_prompt subject⟩ = .ok rawTitle)
    (hs : P.llm ⟨key, creativity, script_prompt rawTitle.trim video_length
        (word_count_of video_length) (research_text_of (P.wiki subject))⟩ =
      .ok rawScript) :
    (generate_script P env_api_key subject video_length creativity api_key).1 =
      .ok (research_text_of (P.wiki subject), rawTitle.trim, rawScript.trim) := by
  rw [generate_script_ok P env_api_key subject video_length creativity
    api_key key rawTitle rawScript hkey ht hs]

/-- Claim C5 witness: the trimmed stub completions are returned. -/
theorem C5_outputs_whitespace_trimmed_witness :
    (generate_script stubProviders (some "k") "sora模型" 1 (7 / 10) none).1 =
      .ok (research_text_of (stubProviders.wiki "sora模型"),
        "  stub completion  ".trim, "  stub completion  ".trim) :=
  C5_outputs_whitespace_trimmed stubProviders (some "k") "sora模型" 1 (7 / 10)
    none "k" "  stub completion  " "  stub completion  " rfl rfl rfl

/-- Claim C6 counterexample: with an explicitly supplied empty-string
credential, two runs that differ only in the configured
DEEPSEEK_API_KEY value differ in behaviour, so the configuration value
IS consulted even though an explicit credential argument was
supplied. -/
theorem C6_empty_credential_counterexample :
    generate_script stubProviders (some "env-key-a") "sora模型" 1 (7 / 10)
        (some "") ≠
      generate_script stubProviders (some "env-key-b") "sora模型" 1 (7 / 10)
        (some "") := by
  have ha := generate_script_ok stubProviders (some "env-key-a") "sora模型" 1
    (7 / 10) (some "") "env-key-a" "  stub completion  " "  stub completion  "
    rfl rfl rfl
  have hb := generate_script_ok stubProviders (some "env-key-b") "sora模型" 1
    (7 / 10) (some "") "env-key-b" "  stub completion  " "  stub completion  "
    rfl rfl rfl
  rw [ha, hb]
  intro h
  simp only [Prod.mk.injEq, List.cons.injEq, NetEvent.llm.injEq,
    LLMRequest.mk.injEq] at h
  exact absurd h.2.1.1 (by decide)

/-- Claim C6 as amended: the configuration value is read only when no
NONEMPTY explicit credential argument is supplied; when a nonempty
explicit credential is supplied, the run is independent of the
configuration value and every language-model request carries the
explicit credential. -/
theorem C6_nonempty_credential_overrides_env
    (P : Providers) (env1 env2 : Option String) (subject : String)
    (video_length creativity : Rat) (ak : String) (hak : ak ≠ "") :
    generate_script P env1 subject video_length creativity (some ak) =
      generate_script P env2 subject video_length creativity (some ak) ∧
    ∀ req : LLMRequest,
      NetEvent.llm req ∈
        (generate_script P env1 subject video_length creativity (some ak)).2 →
      req.api_key = ak := by
  constructor
  · unfold generate_script
    rw [resolve_some env1 ak hak, resolve_some env2 ak hak]
  · exact generate_script_trace_keys P env1 subject video_length creativity
      (some ak) ak (resolve_some env1 ak hak)

/-- Claim C6 witness: with the nonempty credential "k", the run does
not depend on the configured value. -/
theorem C6_nonempty_credential_overrides_env_witness :
    generate_script stubProviders (some "env-key-a") "sora模型" 1 (7 / 10)
        (some "k") =
      generate_script stubProviders none "sora模型" 1 (7 / 10) (some "k") :=
  (C6_nonempty_credential_overrides_env stubProviders (some "env-key-a") none
    "sora模型" 1 (7 / 10) "k" (by decide)).1

/-- Claim C7: when the lookup fails with an error outside the
connection/timeout categories, the fallback research text embeds only
the first 50 characters of the error message. -/
theorem C7_other_error_message_truncated
    (P : Providers) (env_api_key : Option String) (subject : String)
    (video_length creativity : Rat) (api_key : Option String)
    (key rawTitle rawScript msg : String)
    (hkey : resolve_api_key api_key env_api_key = some key)
    (hw : P.wiki subject = .otherError msg)
    (ht : P.llm ⟨key, creativity, title_prompt subject⟩ = .ok rawTitle)
    (hs : P.llm ⟨key, creativity, script_prompt rawTitle.trim video_length
        (word_count_of video_length) (research_text_of (P.wiki subject))⟩ =
      .ok rawScript) :
    (generate_script P env_api_key subject video_length creativity api_key).1 =
      .ok (wiki_other_fallback msg, rawTitle.trim, rawScript.trim) ∧
    wiki_other_fallback msg =
      "维基百科搜索异常：" ++ msg.take 50 ++ "...，以下基于公开常识生成内容" ∧
    (msg.take 50).length ≤ 50 := by
  have h := generate_script_ok P env_api_key subject video_length creativity
    api_key key rawTitle rawScript hkey ht hs
  refine ⟨?_, rfl, string_take_length_le msg 50⟩
  rw [h]
  rw [hw]
  rfl

/-- Claim C7 witness: a lookup failing with message "boom" yields the
truncating fallback. -/
theorem C7_other_error_message_truncated_witness :
    (generate_script stubOtherProviders (some "k") "sora模型" 1 (7 / 10) none).1 =
      .ok (wiki_other_fallback "boom",
        "  stub completion  ".trim, "  stub completion  ".trim) :=
  (C7_other_error_message_truncated stubOtherProviders (some "k") "sora模型" 1
    (7 / 10) none "k" "  stub completion  " "  stub completion  " "boom"
    rfl rfl rfl rfl).1

/-- Claim C8: an explicitly supplied empty-string credential behaves
exactly like an absent one: the run equals the run with no credential
argument, and when the configured value is also unset or empty the
operation raises the configuration error with no network call. -/
theorem C8_empty_credential_treated_as_absent
    (P : Providers) (env_api_key : Option String) (subject : String)
    (video_length creativity : Rat) :
    (generate_script P env_api_key subject video_length creativity (some "") =
      generate_script P env_api_key subject video_length creativity none) ∧
    generate_script P none subject video_length creativity (some "") =
      (.error (.configurationError config_error_msg), []) ∧
    generate_script P (some "") subject video_length creativity (some "") =
      (.error (.configurationError config_error_msg), []) :=
  ⟨rfl, rfl, rfl⟩

/-- Claim C9: no validation of `subject`, `video_length` or
`creativity` happens at entry: with any nonpositive `video_length` and
any subject (including the empty string) the operation still proceeds
through all three calls and embeds the nonpositive truncated budget
`int(video_length * 200)` into the script prompt. -/
theorem C9_no_input_validation
    (P : Providers) (env_api_key : Option String) (subject : String)
    (video_length creativity : Rat) (api_key : Option String)
    (key rawTitle rawScript : String)
    (hkey : resolve_api_key api_key env_api_key = some key)
    (ht : P.llm ⟨key, creativity, title_prompt subject⟩ = .ok rawTitle)
    (hs : P.llm ⟨key, creativity, script_prompt rawTitle.trim video_length
        (word_count_of video_length) (research_text_of (P.wiki subject))⟩ =
      .ok rawScript)
    (hv : video_length ≤ 0) :
    (generate_script P env_api_key subject video_length creativity api_key).1 =
      .ok (research_text_of (P.wiki subject), rawTitle.trim, rawScript.trim) ∧
    (generate_script P env_api_key subject video_length creativity api_key).2 =
      [.llm ⟨key, creativity, title_prompt subject⟩, .wiki subject,
       .llm ⟨key, creativity, script_prompt rawTitle.trim video_length
         (word_count_of video_length) (research_text_of (P.wiki subject))⟩] ∧
    word_count_of video_length ≤ 0 := by
  have h := generate_script_ok P env_api_key subject video_length creativity
    api_key key rawTitle rawScript hkey ht hs
  refine ⟨by rw [h], by rw [h], ?_⟩
  apply pyTrunc_nonpos
  have h200 := mul_le_mul_of_nonneg_right hv (by norm_num : (0 : Rat) ≤ 200)
  simpa using h200

/-- Claim C9 witness: empty subject and `video_length = -1` still
produce a full result, with a nonpositive budget. -/
theorem C9_no_input_validation_witness :
    (generate_script stubProviders (some "k") "" (-1) (7 / 10) none).1 =
      .ok (research_text_of (stubProviders.wiki ""),
        "  stub completion  ".trim, "  stub completion  ".trim) ∧
    word_count_of (-1) ≤ 0 :=
  ⟨(C9_no_input_validation stubProviders (some "k") "" (-1) (7 / 10) none
      "k" "  stub completion  " "  stub completion  " rfl rfl rfl
      (by norm_num)).1,
   (C9_no_input_validation stubProviders (some "k") "" (-1) (7 / 10) none
      "k" "  stub completion  " "  stub completion  " rfl rfl rfl
      (by norm_num)).2.2⟩

/-- Claim C10: a lookup that succeeds with a whitespace-only summary is
treated like an empty result: the research text returned is the fixed
"no information found" fallback, never a whitespace-only string. -/
theorem C10_whitespace_result_fallback
    (P : Providers) (env_api_key : Option String) (subject : String)
    (video_length creativity : Rat) (api_key : Option String)
    (key rawTitle rawScript text : String)
    (hkey : resolve_api_key api_key env_api_key = some key)
    (hw : P.wiki subject = .success text)
    (htext : text.trim = "")
    (ht : P.llm ⟨key, creativity, title_prompt subject⟩ = .ok rawTitle)
    (hs : P.llm ⟨key, creativity, script_prompt rawTitle.trim video_length
        (word_count_of video_length) (research_text_of (P.wiki subject))⟩ =
      .ok rawScript) :
    (generate_script P env_api_key subject video_length creativity api_key).1 =
      .ok (wiki_not_found_fallback, rawTitle.trim, rawScript.trim) := by
  have h := generate_script_ok P env_api_key subject video_length creativity
    api_key key rawTitle rawScript hkey ht hs
  rw [h]
  rw [hw]
  simp [research_text_of, htext]

/-- Claim C10 witness: a three-space summary yields the "no information
found" fallback. -/
theorem C10_whitespace_result_fallback_witness :
    (generate_script stubWhitespaceProviders (some "k") "sora模型" 1 (7 / 10)
        none).1 =
      .ok (wiki_not_found_fallback,
        "  stub completion  ".trim, "  stub completion  ".trim) :=
  C10_whitespace_result_fallback stubWhitespaceProviders (some "k") "sora模型"
    1 (7 / 10) none "k" "  stub completion  " "  stub completion  " "   "
    rfl rfl trim_ws rfl rfl

end VideoScript
